import Mathlib

/-!
Verification of the WOFF2→TTF facade `convert_woff2_to_ttf`
(src/rust/src/api/font_converter.rs).

The facade validates its input (emptiness check, then the 4-byte WOFF2
signature `0x77 0x4F 0x46 0x32`) and otherwise passes the whole buffer to
the core decoder `woofwoof::decompress : &[u8] -> Option<Vec<u8>>`, mapping
`None` to a single error value. The core decoder lives in an external crate
and is modelled here as an arbitrary function parameter
`core : List Nat → Option (List Nat)`; bytes are `Nat`s (values 0–255 in
every input of interest, though nothing below depends on the bound).
-/

/-- The error values the facade can produce: one constructor per `anyhow!`
message occurring in `convert_woff2_to_ttf`. -/
inductive Woff2Error where
  | emptyInput
  | invalidSignature
  | decodeFailed
deriving DecidableEq, Repr

/-- The error message string attached to each error value in the source. -/
def Woff2Error.message : Woff2Error → String
  | .emptyInput => "Empty WOFF2 data"
  | .invalidSignature => "Invalid WOFF2 signature"
  | .decodeFailed => "WOFF2 decode failed"

/-- Shallow embedding of `convert_woff2_to_ttf`.
`core` stands for `woofwoof::decompress` (an external crate, Option-returning).
Rust's guarded indexing `woff2_data[i]` is rendered with `getD i 0`; the
default can only be consulted when `length < 4`, in which case the first
disjunct already decides the condition, exactly as Rust's short-circuit `||`
prevents the indexing from happening. `convert?` below embeds the panicking
semantics directly and is proved to agree. -/
def convert_woff2_to_ttf (core : List Nat → Option (List Nat))
    (woff2_data : List Nat) : Except Woff2Error (List Nat) :=
  if woff2_data.isEmpty then .error .emptyInput
  else if woff2_data.length < 4 ∨ woff2_data.getD 0 0 ≠ 0x77
      ∨ woff2_data.getD 1 0 ≠ 0x4F ∨ woff2_data.getD 2 0 ≠ 0x46
      ∨ woff2_data.getD 3 0 ≠ 0x32 then
    .error .invalidSignature
  else match core woff2_data with
    | some ttf => .ok ttf
    | none => .error .decodeFailed

/-- Embedding of `convert_woff2_to_ttf` with Rust's panicking indexing made
explicit: `woff2_data[i]` is `woff2_data[i]?`, and an out-of-bounds access
(a Rust panic) yields `none` for the whole call. The `length < 4` test is
kept as a separate branch to reproduce the short-circuit of `||`: when it
fires, no indexing is evaluated. -/
def convert? (core : List Nat → Option (List Nat))
    (woff2_data : List Nat) : Option (Except Woff2Error (List Nat)) :=
  if woff2_data.isEmpty then some (.error .emptyInput)
  else if woff2_data.length < 4 then some (.error .invalidSignature)
  else match woff2_data[0]?, woff2_data[1]?, woff2_data[2]?, woff2_data[3]? with
    | some b0, some b1, some b2, some b3 =>
      if b0 ≠ 0x77 ∨ b1 ≠ 0x4F ∨ b2 ≠ 0x46 ∨ b3 ≠ 0x32 then
        some (.error .invalidSignature)
      else some (match core woff2_data with
        | some ttf => .ok ttf
        | none => .error .decodeFailed)
    | _, _, _, _ => none

/-- Modelled from the spec: the core decoder (`woofwoof::decompress`, not in
src/) fails — returns `None` — on the malformed inputs used below: a 4-byte
input cannot contain the WOFF2 header (§8 "header incomplete"), and the other
inputs used with it are garbage past the signature. This constant is a
conforming core restricted to such inputs: it always fails. -/
def failingCore : List Nat → Option (List Nat) := fun _ => none

theorem take_four_eq (l : List Nat) (h : 4 ≤ l.length) :
    l.take 4 = [l.getD 0 0, l.getD 1 0, l.getD 2 0, l.getD 3 0] := by
  match l with
  | [] => simp at h
  | [a] => simp at h
  | [a, b] => simp at h
  | [a, b, c] => simp at h
  | a :: b :: c :: d :: t => simp [List.getD]

theorem length_ge_four_of_take (l : List Nat)
    (h : l.take 4 = [0x77, 0x4F, 0x46, 0x32]) : 4 ≤ l.length := by
  have := congrArg List.length h
  simp [List.length_take] at this
  omega

theorem convert_sig_pass (core : List Nat → Option (List Nat)) (l : List Nat)
    (h : l.take 4 = [0x77, 0x4F, 0x46, 0x32]) :
    convert_woff2_to_ttf core l =
      match core l with
      | some ttf => .ok ttf
      | none => .error .decodeFailed := by
  have hlen : 4 ≤ l.length := length_ge_four_of_take l h
  have htake := take_four_eq l hlen
  rw [h] at htake
  have h0 : l.getD 0 0 = 0x77 := by simpa using congrArg (fun x => x.getD 0 0) htake.symm
  have h1 : l.getD 1 0 = 0x4F := by simpa using congrArg (fun x => x.getD 1 0) htake.symm
  have h2 : l.getD 2 0 = 0x46 := by simpa using congrArg (fun x => x.getD 2 0) htake.symm
  have h3 : l.getD 3 0 = 0x32 := by simpa using congrArg (fun x => x.getD 3 0) htake.symm
  have hne : ¬ l.isEmpty := by
    cases l with
    | nil => simp at hlen
    | cons a t => simp
  rw [convert_woff2_to_ttf, if_neg hne, if_neg]
  push_neg
  exact ⟨by omega, h0, h1, h2, h3⟩

theorem convert_eq_of_isEmpty (core : List Nat → Option (List Nat)) (l : List Nat)
    (he : l.isEmpty) : convert_woff2_to_ttf core l = .error .emptyInput := by
  rw [convert_woff2_to_ttf, if_pos he]

theorem convert_question_eq_some (core : List Nat → Option (List Nat)) (l : List Nat) :
    convert? core l = some (convert_woff2_to_ttf core l) := by
  by_cases he : l.isEmpty
  · rw [convert?, convert_woff2_to_ttf, if_pos he, if_pos he]
  · by_cases h4 : l.length < 4
    · rw [convert?, convert_woff2_to_ttf, if_neg he, if_neg he, if_pos h4, if_pos (Or.inl h4)]
    · have e0 : l[0]? = some (l.getD 0 0) := by
        rw [List.getElem?_eq_getElem (by omega), List.getD_eq_getElem _ _ (by omega)]
      have e1 : l[1]? = some (l.getD 1 0) := by
        rw [List.getElem?_eq_getElem (by omega), List.getD_eq_getElem _ _ (by omega)]
      have e2 : l[2]? = some (l.getD 2 0) := by
        rw [List.getElem?_eq_getElem (by omega), List.getD_eq_getElem _ _ (by omega)]
      have e3 : l[3]? = some (l.getD 3 0) := by
        rw [List.getElem?_eq_getElem (by omega), List.getD_eq_getElem _ _ (by omega)]
      rw [convert?, convert_woff2_to_ttf, if_neg he, if_neg he, if_neg h4, e0, e1, e2, e3]
      dsimp only
      by_cases hsig : l.getD 0 0 ≠ 0x77 ∨ l.getD 1 0 ≠ 0x4F ∨ l.getD 2 0 ≠ 0x46
          ∨ l.getD 3 0 ≠ 0x32
      · rw [if_pos hsig, if_pos (Or.inr hsig)]
      · rw [if_neg hsig, if_neg (fun hc => hc.elim h4 hsig)]

/-- C1: for every input of length at least 4 whose first 4 bytes are not exactly
0x77 0x4F 0x46 0x32, `convert_woff2_to_ttf` returns the invalid-signature error,
for every core decoder (so the core is never invoked and the result is never
`ok`). -/
theorem c1_invalid_signature (core : List Nat → Option (List Nat)) (l : List Nat)
    (h4 : 4 ≤ l.length) (hsig : l.take 4 ≠ [0x77, 0x4F, 0x46, 0x32]) :
    convert_woff2_to_ttf core l = .error .invalidSignature := by
  have htake := take_four_eq l h4
  have hne : ¬ l.isEmpty := by
    cases l with
    | nil => simp at h4
    | cons a t => simp
  rw [convert_woff2_to_ttf, if_neg hne, if_pos]
  by_contra hc
  push_neg at hc
  obtain ⟨-, e0, e1, e2, e3⟩ := hc
  exact hsig (by rw [htake, e0, e1, e2, e3])

/-- C1 witness: the hypotheses hold at the concrete input 0x00 0x01 0x00 0x00
and the theorem yields the invalid-signature error there. -/
theorem c1_witness :
    4 ≤ ([0x00, 0x01, 0x00, 0x00] : List Nat).length
    ∧ ([0x00, 0x01, 0x00, 0x00] : List Nat).take 4 ≠ [0x77, 0x4F, 0x46, 0x32]
    ∧ convert_woff2_to_ttf (fun _ => some [1]) [0x00, 0x01, 0x00, 0x00]
        = .error .invalidSignature :=
  ⟨by decide, by decide,
   c1_invalid_signature (fun _ => some [1]) [0x00, 0x01, 0x00, 0x00] (by decide) (by decide)⟩

/-- C2: every input shorter than 4 bytes yields the empty-input or the
invalid-signature error, and the panicking-semantics embedding does not panic
on it. -/
theorem c2_short_input (core : List Nat → Option (List Nat)) (l : List Nat)
    (h : l.length < 4) :
    (convert_woff2_to_ttf core l = .error .emptyInput
      ∨ convert_woff2_to_ttf core l = .error .invalidSignature)
    ∧ convert? core l ≠ none := by
  constructor
  · by_cases he : l.isEmpty
    · exact Or.inl (by rw [convert_woff2_to_ttf, if_pos he])
    · exact Or.inr (by rw [convert_woff2_to_ttf, if_neg he, if_pos (Or.inl h)])
  · rw [convert_question_eq_some]
    exact fun hc => Option.noConfusion hc

/-- C2 witness: the empty input satisfies the hypothesis and the theorem
applies to it. -/
theorem c2_witness :
    ([] : List Nat).length < 4
    ∧ ((convert_woff2_to_ttf (fun _ => none) [] = .error .emptyInput
        ∨ convert_woff2_to_ttf (fun _ => none) [] = .error .invalidSignature)
       ∧ convert? (fun _ => none) [] ≠ none) :=
  ⟨by decide, c2_short_input (fun _ => none) [] (by decide)⟩

/-- C3: when the precondition checks pass (non-empty input starting with the
WOFF2 signature), the facade is a pure pass-through: it returns `ok b` exactly
when the core decode of the full input is `some b`, and the decode-failed
error exactly when the core decode is `none`. -/
theorem c3_pass_through (core : List Nat → Option (List Nat)) (l : List Nat)
    (hne : l ≠ []) (hsig : l.take 4 = [0x77, 0x4F, 0x46, 0x32]) :
    (∀ b, convert_woff2_to_ttf core l = .ok b ↔ core l = some b)
    ∧ (convert_woff2_to_ttf core l = .error .decodeFailed ↔ core l = none) := by
  have h := convert_sig_pass core l hsig
  constructor
  · intro b
    rw [h]
    cases hc : core l with
    | some t => simp
    | none => simp
  · rw [h]
    cases hc : core l with
    | some t => simp
    | none => simp

/-- C3 witness: at the 4-signature-byte input with a core returning `some [1]`,
the hypotheses hold and the pass-through equivalence specialises to a true
concrete biconditional. -/
theorem c3_witness :
    ([0x77, 0x4F, 0x46, 0x32] : List Nat) ≠ []
    ∧ ([0x77, 0x4F, 0x46, 0x32] : List Nat).take 4 = [0x77, 0x4F, 0x46, 0x32]
    ∧ (convert_woff2_to_ttf (fun _ => some [1]) [0x77, 0x4F, 0x46, 0x32] = .ok [1]
       ↔ (some [1] : Option (List Nat)) = some [1]) :=
  ⟨by decide, by decide,
   (c3_pass_through (fun _ => some [1]) [0x77, 0x4F, 0x46, 0x32]
     (by decide) (by decide)).1 [1]⟩

/-- C4 counterexample: on the input consisting of exactly the 4 signature
bytes (whose header is incomplete, so any conforming core returns `None`;
`failingCore` is the spec-modelled core), the facade returns the single
generic decode-failed error, whose message is "WOFF2 decode failed". No error
value of the facade is a TruncatedInput-discriminated error: the three
possible messages, listed here, are all different from any truncation
indication, refuting the claim that this input fails with kind
TruncatedInput. -/
theorem c4_counterexample :
    convert_woff2_to_ttf failingCore [0x77, 0x4F, 0x46, 0x32] = .error .decodeFailed
    ∧ Woff2Error.message .decodeFailed = "WOFF2 decode failed"
    ∧ Woff2Error.message .emptyInput ≠ "TruncatedInput"
    ∧ Woff2Error.message .invalidSignature ≠ "TruncatedInput"
    ∧ Woff2Error.message .decodeFailed ≠ "TruncatedInput" :=
  ⟨rfl, rfl, by decide, by decide, by decide⟩

/-- C4 amended: for the input of exactly the 4 signature bytes,
`convert_woff2_to_ttf` fails with the generic decode-failed error (message
"WOFF2 decode failed"), for every core that fails on that input — the facade
does not surface a TruncatedInput kind. -/
theorem c4_amended_generic_decode_error (core : List Nat → Option (List Nat))
    (h : core [0x77, 0x4F, 0x46, 0x32] = none) :
    convert_woff2_to_ttf core [0x77, 0x4F, 0x46, 0x32] = .error .decodeFailed := by
  rw [convert_sig_pass core _ (by decide), h]

/-- C4 witness: the spec-modelled core fails on the 4-signature-byte input and
the amended theorem applies to it. -/
theorem c4_witness :
    failingCore [0x77, 0x4F, 0x46, 0x32] = none
    ∧ convert_woff2_to_ttf failingCore [0x77, 0x4F, 0x46, 0x32] = .error .decodeFailed :=
  ⟨rfl, c4_amended_generic_decode_error failingCore rfl⟩

/-- C5 counterexample: two inputs that fail for different §7 causes — the bare
4-byte signature (truncated header) and the signature followed by eight 0xFF
garbage bytes (malformed directory / decompression failure) — produce the
byte-for-byte identical error value from the facade. The core's `None` is
mapped to one undifferentiated error, so the returned error does not identify
which §7 cause occurred, refuting the claim. `failingCore` is the spec-modelled
conforming core on these malformed inputs. -/
theorem c5_counterexample :
    convert_woff2_to_ttf failingCore [0x77, 0x4F, 0x46, 0x32] = .error .decodeFailed
    ∧ convert_woff2_to_ttf failingCore
        [0x77, 0x4F, 0x46, 0x32, 0xFF, 0xFF, 0xFF, 0xFF, 0xFF, 0xFF, 0xFF, 0xFF]
        = .error .decodeFailed :=
  ⟨rfl, rfl⟩

/-- C5 amended: the facade's errors carry only the three kinds corresponding
to its messages (empty input, invalid signature, generic decode-failed), and
all core decode failures collapse to the single undifferentiated decode-failed
value: any two calls whose core stage fails — whatever the underlying cause —
return the same error. -/
theorem c5_amended_collapse (core core' : List Nat → Option (List Nat))
    (l l' : List Nat) (h : core l = none) (h' : core' l' = none)
    (hs : l.take 4 = [0x77, 0x4F, 0x46, 0x32])
    (hs' : l'.take 4 = [0x77, 0x4F, 0x46, 0x32]) :
    convert_woff2_to_ttf core l = convert_woff2_to_ttf core' l'
    ∧ convert_woff2_to_ttf core l = .error .decodeFailed
    ∧ (Woff2Error.decodeFailed = .emptyInput ∨ Woff2Error.decodeFailed = .invalidSignature
       ∨ Woff2Error.decodeFailed = .decodeFailed) := by
  have e1 : convert_woff2_to_ttf core l = .error .decodeFailed := by
    rw [convert_sig_pass core l hs, h]
  have e2 : convert_woff2_to_ttf core' l' = .error .decodeFailed := by
    rw [convert_sig_pass core' l' hs', h']
  exact ⟨e1.trans e2.symm, e1, Or.inr (Or.inr rfl)⟩

/-- C5 witness: the amended theorem applied to the spec-modelled failing core
at the two concrete malformed inputs of the counterexample. -/
theorem c5_witness :
    failingCore [0x77, 0x4F, 0x46, 0x32] = none
    ∧ ([0x77, 0x4F, 0x46, 0x32] : List Nat).take 4 = [0x77, 0x4F, 0x46, 0x32]
    ∧ convert_woff2_to_ttf failingCore [0x77, 0x4F, 0x46, 0x32]
        = convert_woff2_to_ttf failingCore
            [0x77, 0x4F, 0x46, 0x32, 0xFF, 0xFF, 0xFF, 0xFF, 0xFF, 0xFF, 0xFF, 0xFF] :=
  ⟨rfl, by decide,
   (c5_amended_collapse failingCore failingCore
     [0x77, 0x4F, 0x46, 0x32]
     [0x77, 0x4F, 0x46, 0x32, 0xFF, 0xFF, 0xFF, 0xFF, 0xFF, 0xFF, 0xFF, 0xFF]
     rfl rfl (by decide) (by decide)).1⟩

/-- C6: on every input and for every core, the facade neither panics nor
reads out of bounds — the panicking-semantics embedding `convert?`, in which
each `woff2_data[i]` access is the partial `woff2_data[i]?` and an
out-of-bounds access aborts the whole call, always returns
`some (convert_woff2_to_ttf core l)` — and the call terminates with either
`ok` or one of the typed error values. The byte accesses at positions 0–3
are reached only past the `length < 4` short-circuit, which is what the
equality proves. -/
theorem c6_no_panic_total (core : List Nat → Option (List Nat)) (l : List Nat) :
    convert? core l = some (convert_woff2_to_ttf core l)
    ∧ ((∃ b, convert_woff2_to_ttf core l = .ok b)
       ∨ (∃ e, convert_woff2_to_ttf core l = .error e)) := by
  refine ⟨convert_question_eq_some core l, ?_⟩
  cases h : convert_woff2_to_ttf core l with
  | ok b => exact Or.inl ⟨b, rfl⟩
  | error e => exact Or.inr ⟨e, rfl⟩

/-- C7: `convert_woff2_to_ttf` is deterministic — byte-for-byte equal inputs
give equal results. The embedding is a pure function of the input and the
core, with no other state, mirroring the source's freedom from I/O and
mutable globals. -/
theorem c7_deterministic (core : List Nat → Option (List Nat)) (l l' : List Nat)
    (h : l = l') : convert_woff2_to_ttf core l = convert_woff2_to_ttf core l' := by
  rw [h]

/-- C7 witness: two syntactically equal concrete inputs give equal results. -/
theorem c7_witness :
    ([0x77, 0x4F, 0x46, 0x32] : List Nat) = [0x77, 0x4F, 0x46, 0x32]
    ∧ convert_woff2_to_ttf (fun _ => none) [0x77, 0x4F, 0x46, 0x32]
        = convert_woff2_to_ttf (fun _ => none) [0x77, 0x4F, 0x46, 0x32] :=
  ⟨rfl, c7_deterministic (fun _ => none) [0x77, 0x4F, 0x46, 0x32] [0x77, 0x4F, 0x46, 0x32] rfl⟩

/-- C9: the emptiness check precedes the signature check — the empty input
gets specifically the empty-input error ("Empty WOFF2 data"), and every
non-empty input of fewer than 4 bytes gets specifically the invalid-signature
error ("Invalid WOFF2 signature"), never the reverse. -/
theorem c9_check_order (core : List Nat → Option (List Nat)) (l : List Nat)
    (h1 : l ≠ []) (h2 : l.length < 4) :
    convert_woff2_to_ttf core [] = .error .emptyInput
    ∧ convert_woff2_to_ttf core l = .error .invalidSignature
    ∧ Woff2Error.message .emptyInput = "Empty WOFF2 data"
    ∧ Woff2Error.message .invalidSignature = "Invalid WOFF2 signature" := by
  refine ⟨rfl, ?_, rfl, rfl⟩
  have he : ¬ l.isEmpty := by simpa using h1
  rw [convert_woff2_to_ttf, if_neg he, if_pos (Or.inl h2)]

/-- C9 witness: the single byte 0x77 is non-empty and shorter than 4 bytes,
and the theorem applies to it. -/
theorem c9_witness :
    ([0x77] : List Nat) ≠ []
    ∧ ([0x77] : List Nat).length < 4
    ∧ convert_woff2_to_ttf (fun _ => none) [] = .error .emptyInput
    ∧ convert_woff2_to_ttf (fun _ => none) [0x77] = .error .invalidSignature :=
  ⟨by decide, by decide, (c9_check_order (fun _ => none) [0x77] (by decide) (by decide)).1,
   (c9_check_order (fun _ => none) [0x77] (by decide) (by decide)).2.1⟩

/-- C10: when the precondition checks pass, the facade forwards the entire
original input buffer to the core unmodified: its result depends only on the
core's value at the exact, full input list (signature bytes included, nothing
stripped, altered, appended or truncated) — two cores that agree on that one
list give equal results. -/
theorem c10_frame (core core' : List Nat → Option (List Nat)) (l : List Nat)
    (hne : l ≠ []) (hsig : l.take 4 = [0x77, 0x4F, 0x46, 0x32])
    (h : core l = core' l) :
    convert_woff2_to_ttf core l = convert_woff2_to_ttf core' l := by
  rw [convert_sig_pass core l hsig, convert_sig_pass core' l hsig, h]

/-- C10 witness: two cores that agree only on the concrete 4-signature-byte
input (and differ elsewhere) give the same result there. -/
theorem c10_witness :
    ([0x77, 0x4F, 0x46, 0x32] : List Nat) ≠ []
    ∧ ([0x77, 0x4F, 0x46, 0x32] : List Nat).take 4 = [0x77, 0x4F, 0x46, 0x32]
    ∧ (fun _ : List Nat => (none : Option (List Nat))) [0x77, 0x4F, 0x46, 0x32]
        = (fun x : List Nat =>
            if x.length = 4 then (none : Option (List Nat)) else some []) [0x77, 0x4F, 0x46, 0x32]
    ∧ convert_woff2_to_ttf (fun _ => none) [0x77, 0x4F, 0x46, 0x32]
        = convert_woff2_to_ttf
            (fun x => if x.length = 4 then none else some []) [0x77, 0x4F, 0x46, 0x32] :=
  ⟨by decide, by decide, by decide,
   c10_frame (fun _ => none) (fun x => if x.length = 4 then none else some [])
     [0x77, 0x4F, 0x46, 0x32] (by decide) (by decide) (by decide)⟩
